import Mathlib

/-!
Shallow embedding of the sepsis scoring engine in `clinical_scoring.py`
(class `SepsisScoring`): the SOFA organ sub-scorers and aggregator, the
qSOFA calculator, the septic-shock assessor, and the NEWS2 calculator.

Modelling conventions:
- Python floats carrying clinical measurements are modelled as `ℚ`
  (decimal literals such as `0.1` or `3.5` are exact rationals here, and
  the source only ever compares them, never does float arithmetic).
- Python ints (GCS, NEWS2 vitals, baseline SOFA) are `ℤ`; scores are `ℕ`.
- `Optional[float]` becomes `Option ℚ`; the qSOFA early return carrying
  an error message becomes `Except String _`.
- The NEWS2 `score` dict is a structure with one field per key the source
  can write; a key the source may leave unset is an `Option ℕ` field with
  `none` for "absent". `dict` assignment that can overwrite an earlier
  value (the `oxygen_saturation` key) is modelled by letting the later
  write shadow the earlier one.
- Python strings are modelled as lists of code points (`List ℕ`), with
  `str.upper` modelled on the ASCII range (the only range the enumerated
  inputs Alert / Voice / Pain / Unresponsive exercise).
- Python chained comparisons `a <= b >= c` mean `a <= b and b >= c` and
  are transcribed exactly that way.
-/

namespace SepsisScoring

/-- Sub-scores returned by `calculate_total_sofa` under `individual_scores`. -/
structure SofaScores where
  respiration : ℕ
  coagulation : ℕ
  liver : ℕ
  cardiovascular : ℕ
  cns : ℕ
  renal : ℕ
deriving DecidableEq, Repr

/-- Result dict of `calculate_total_sofa` (the free-text interpretation
string is not modelled; no claim mentions it). -/
structure SofaResult where
  individual_scores : SofaScores
  total_sofa : ℕ
  baseline_sofa : ℤ
  delta_sofa : ℤ
  sepsis_criteria_met : Bool
  estimated_mortality_risk_percent : ℕ
deriving DecidableEq, Repr

/-- `calculate_sofa_respiration`: PaO2/FiO2 ladder; scores 3 and 4 need
`respiratory_support`, and a ratio below 200 without support falls through
to the late `if pao2_fio2 < 200: return 2` branch. -/
def calculate_sofa_respiration (pao2_fio2 : ℚ) (respiratory_support : Bool) : ℕ :=
  if 400 ≤ pao2_fio2 then 0
  else if pao2_fio2 < 400 ∧ 300 ≤ pao2_fio2 then 1
  else if pao2_fio2 < 300 ∧ 200 ≤ pao2_fio2 then 2
  else if pao2_fio2 < 200 ∧ 100 ≤ pao2_fio2 ∧ respiratory_support then 3
  else if pao2_fio2 < 100 ∧ respiratory_support then 4
  else if pao2_fio2 < 200 then 2
  else 2

/-- `calculate_sofa_coagulation`: platelet ladder. -/
def calculate_sofa_coagulation (platelets : ℚ) : ℕ :=
  if 150 ≤ platelets then 0
  else if 100 ≤ platelets then 1
  else if 50 ≤ platelets then 2
  else if 20 ≤ platelets then 3
  else 4

/-- `calculate_sofa_liver`: bilirubin ladder. -/
def calculate_sofa_liver (bilirubin : ℚ) : ℕ :=
  if bilirubin < 1.2 then 0
  else if bilirubin ≤ 1.9 then 1
  else if bilirubin ≤ 5.9 then 2
  else if bilirubin ≤ 11.9 then 3
  else 4

/-- `calculate_sofa_cardiovascular`: MAP decides 0 or 1 when all four
vasopressor doses equal zero; otherwise the dose bands are tried in the
source order 2, 3, 4, with a final fallback of 1. -/
def calculate_sofa_cardiovascular (map_mmhg : ℚ) (dopamine_dose : ℚ)
    (dobutamine_dose : ℚ) (epinephrine_dose : ℚ) (norepinephrine_dose : ℚ) : ℕ :=
  if dopamine_dose = 0 ∧ dobutamine_dose = 0 ∧ epinephrine_dose = 0 ∧
      norepinephrine_dose = 0 then
    if 70 ≤ map_mmhg then 0 else 1
  else if (0 < dopamine_dose ∧ dopamine_dose ≤ 5) ∨ 0 < dobutamine_dose then 2
  else if (5 < dopamine_dose ∧ dopamine_dose ≤ 15) ∨
      (0 < epinephrine_dose ∧ epinephrine_dose ≤ 0.1) ∨
      (0 < norepinephrine_dose ∧ norepinephrine_dose ≤ 0.1) then 3
  else if 15 < dopamine_dose ∨ 0.1 < epinephrine_dose ∨ 0.1 < norepinephrine_dose then 4
  else 1

/-- `calculate_sofa_cns`: Glasgow Coma Scale ladder. -/
def calculate_sofa_cns (gcs : ℤ) : ℕ :=
  if gcs = 15 then 0
  else if 13 ≤ gcs ∧ gcs ≤ 14 then 1
  else if 10 ≤ gcs ∧ gcs ≤ 12 then 2
  else if 6 ≤ gcs ∧ gcs ≤ 9 then 3
  else 4

/-- `calculate_sofa_renal`: creatinine ladder, optionally maxed with a
urine-output score when urine output is supplied. -/
def calculate_sofa_renal (creatinine : ℚ) (urine_output_ml_day : Option ℚ) : ℕ :=
  let creat_score : ℕ :=
    if 5.0 ≤ creatinine then 4
    else if 3.5 ≤ creatinine then 3
    else if 2.0 ≤ creatinine then 2
    else if 1.2 ≤ creatinine then 1
    else 0
  match urine_output_ml_day with
  | none => creat_score
  | some u =>
      let urine_score : ℕ := if u < 200 then 4 else if u < 500 then 1 else 0
      max creat_score urine_score

/-- `calculate_total_sofa`: aggregates the six sub-scores, computes the
delta against the caller-supplied baseline, the sepsis flag and the
linear mortality proxy `min(10 + total*5, 90)`. -/
def calculate_total_sofa (pao2_fio2 platelets bilirubin map_mmhg : ℚ) (gcs : ℤ)
    (creatinine : ℚ) (respiratory_support : Bool)
    (dopamine_dose dobutamine_dose epinephrine_dose norepinephrine_dose : ℚ)
    (urine_output_ml_day : Option ℚ) (baseline_sofa : ℤ) : SofaResult :=
  let scores : SofaScores :=
    { respiration := calculate_sofa_respiration pao2_fio2 respiratory_support
      coagulation := calculate_sofa_coagulation platelets
      liver := calculate_sofa_liver bilirubin
      cardiovascular := calculate_sofa_cardiovascular map_mmhg dopamine_dose
        dobutamine_dose epinephrine_dose norepinephrine_dose
      cns := calculate_sofa_cns gcs
      renal := calculate_sofa_renal creatinine urine_output_ml_day }
  let total_sofa : ℕ := scores.respiration + scores.coagulation + scores.liver +
    scores.cardiovascular + scores.cns + scores.renal
  let delta_sofa : ℤ := (total_sofa : ℤ) - baseline_sofa
  { individual_scores := scores
    total_sofa := total_sofa
    baseline_sofa := baseline_sofa
    delta_sofa := delta_sofa
    sepsis_criteria_met := decide (2 ≤ delta_sofa)
    estimated_mortality_risk_percent := min (10 + total_sofa * 5) 90 }

/-- Payload of a successful `calculate_qsofa` call (the interpretation and
recommendation strings are not modelled; no claim mentions them). -/
structure QsofaOk where
  respiratory_rate_22_or_higher : Bool
  altered_mentation : Bool
  systolic_bp_100_or_lower : Bool
  qsofa_score : ℕ
  high_risk_for_poor_outcomes : Bool
deriving DecidableEq, Repr

/-- Error message of the qSOFA insufficient-input result. -/
def qsofaMissingMsg : String :=
  "Missing one or more required inputs (respiratory rate, SBP, or GCS)."

/-- `calculate_qsofa`: returns the insufficient-input result when any of
the three inputs is absent, otherwise counts the true criteria. -/
def calculate_qsofa (respiratory_rate : Option ℚ) (systolic_bp : Option ℚ)
    (gcs : Option ℤ) : Except String QsofaOk :=
  match respiratory_rate, systolic_bp, gcs with
  | some rr, some sbp, some g =>
      let c1 : Bool := decide (22 ≤ rr)
      let c2 : Bool := decide (g < 15)
      let c3 : Bool := decide (sbp ≤ 100)
      let qsofa_score : ℕ := c1.toNat + c2.toNat + c3.toNat
      Except.ok
        { respiratory_rate_22_or_higher := c1
          altered_mentation := c2
          systolic_bp_100_or_lower := c3
          qsofa_score := qsofa_score
          high_risk_for_poor_outcomes := decide (2 ≤ qsofa_score) }
  | _, _, _ => Except.error qsofaMissingMsg

/-- The `qsofa_score` entry of the returned dict: `none` models the
Python `None` of the insufficient-input result. -/
def qsofaScoreOf (r : Except String QsofaOk) : Option ℕ :=
  match r with
  | Except.ok o => some o.qsofa_score
  | Except.error _ => none

/-- Result dict of `assess_septic_shock` (interpretation text elided). -/
structure ShockResult where
  sepsis_present : Bool
  persistent_hypotension_on_vasopressors : Bool
  lactate_greater_than_2 : Bool
  adequate_volume_resuscitation : Bool
  septic_shock_present : Bool
  estimated_mortality_risk : String
deriving DecidableEq, Repr

/-- `assess_septic_shock`: four boolean criteria combined by conjunction;
the mortality category is a string. -/
def assess_septic_shock (map_mmhg : ℚ) (lactate_mmol_l : ℚ)
    (on_vasopressors : Bool) (adequate_volume_resus : Bool)
    (sepsis_present : Bool) : ShockResult :=
  let c1 : Bool := sepsis_present
  let c2 : Bool := on_vasopressors && decide (65 ≤ map_mmhg)
  let c3 : Bool := decide (2.0 < lactate_mmol_l)
  let c4 : Bool := adequate_volume_resus
  let septic_shock : Bool := c1 && c2 && c3 && c4
  { sepsis_present := c1
    persistent_hypotension_on_vasopressors := c2
    lactate_greater_than_2 := c3
    adequate_volume_resuscitation := c4
    septic_shock_present := septic_shock
    estimated_mortality_risk :=
      if septic_shock then ">40%" else "Variable based on other factors" }

/-- Python string modelled as its list of Unicode code points. -/
abbrev PyStr := List ℕ

/-- Per-character ASCII model of Python `str.upper`: lowercase
`a`..`z` (code points 97..122) map down by 32, everything else is kept. -/
def pyUpperChar (c : ℕ) : ℕ := if 97 ≤ c ∧ c ≤ 122 then c - 32 else c

/-- Model of `s.upper().startswith('A')`: the first code point of the
uppercased string is 65 (the code point of `A`). -/
def startsWithUpperA (s : PyStr) : Bool :=
  match s.map pyUpperChar with
  | [] => false
  | c :: _ => c == 65

/-- The code points of the string Alert. -/
def strAlert : PyStr := [65, 108, 101, 114, 116]

/-- The code points of the string Voice. -/
def strVoice : PyStr := [86, 111, 105, 99, 101]

/-- The code points of the string Pain. -/
def strPain : PyStr := [80, 97, 105, 110]

/-- The code points of the string Unresponsive. -/
def strUnresponsive : PyStr := [85, 110, 114, 101, 115, 112, 111, 110, 115, 105, 118, 101]

/-- The NEWS2 `score` dict. One field per key the source can write;
`Option ℕ` fields model keys a cascade with no final else may leave
unset. `oxygen_saturation` can be written by the Scale-1 block (value 0,
when Scale 1 is at least 96) and then overwritten by the Scale-2 block
(value 0, when its first condition holds). -/
structure News2Scores where
  respiratory_rate : Option ℕ
  oxygen_saturation : Option ℕ
  SpO2_Scale_1 : Option ℕ
  SpO2_Scale_2 : Option ℕ
  Age : Option ℕ
  Fio2 : ℕ
  systolic_bp : ℕ
  heart_rate : ℕ
  level_of_consciousness : ℕ
  temperature : ℕ
deriving DecidableEq, Repr

/-- Respiratory-rate block of `calculate_news2`: a four-branch elif chain
with no final else, so rates 25..31 set no key (`none`). -/
def news2RespRateScore (respiratory_rate : ℤ) : Option ℕ :=
  if 12 ≤ respiratory_rate ∧ respiratory_rate ≤ 20 then some 0
  else if 9 ≤ respiratory_rate ∧ respiratory_rate ≤ 11 then some 1
  else if 21 ≤ respiratory_rate ∧ respiratory_rate ≤ 24 then some 2
  else if respiratory_rate ≤ 8 ∨ 32 ≤ respiratory_rate then some 3
  else none

/-- SpO2-Scale-1 block: first component is the write to the
`oxygen_saturation` key, second the write to the `SpO2_Scale_1` key. -/
def news2Scale1Scores (s1 : ℤ) : Option ℕ × Option ℕ :=
  if 96 ≤ s1 then (some 0, none)
  else if 94 ≤ s1 ∧ s1 ≤ 95 then (none, some 1)
  else if 92 ≤ s1 ∧ s1 ≤ 93 then (none, some 2)
  else (none, some 3)

/-- SpO2-Scale-2 block: first component is the write to the
`oxygen_saturation` key, second the write to the `SpO2_Scale_2` key.
The source uses Python chained comparisons (`88 <= s2 >= 92` is
`88 ≤ s2 ∧ 92 ≤ s2`), transcribed literally. -/
def news2Scale2Scores (s2 : ℤ) (supplemental_oxygen : Bool) : Option ℕ × Option ℕ :=
  if (88 ≤ s2 ∧ 92 ≤ s2) ∨ (¬supplemental_oxygen ∧ 93 ≤ s2) then (some 0, none)
  else if (86 ≤ s2 ∧ s2 ≤ 87) ∨ (supplemental_oxygen ∧ 93 ≤ s2 ∧ 94 ≤ s2) then (none, some 1)
  else if (84 ≤ s2 ∧ s2 ≤ 85) ∨ (supplemental_oxygen ∧ 95 ≤ s2 ∧ 96 ≤ s2) then (none, some 2)
  else (none, some 3)

/-- Age block: elif chain that is total over the integers but carries no
final else in the source, hence `Option`. -/
def news2AgeScore (age : ℤ) : Option ℕ :=
  if age < 40 then some 0
  else if 40 ≤ age ∧ age ≤ 65 then some 1
  else if 66 ≤ age ∧ age ≤ 79 then some 2
  else if 80 ≤ age then some 3
  else none

/-- Systolic-blood-pressure block (total: final else). -/
def news2SbpScore (systolic_bp : ℤ) : ℕ :=
  if 111 ≤ systolic_bp ∧ systolic_bp ≤ 219 then 0
  else if 101 ≤ systolic_bp ∧ systolic_bp ≤ 110 then 1
  else if 91 ≤ systolic_bp ∧ systolic_bp ≤ 100 then 2
  else 3

/-- Heart-rate block (total: final else). -/
def news2HeartRateScore (heart_rate : ℤ) : ℕ :=
  if 51 ≤ heart_rate ∧ heart_rate ≤ 90 then 0
  else if (41 ≤ heart_rate ∧ heart_rate ≤ 50) ∨ (91 ≤ heart_rate ∧ heart_rate ≤ 110) then 1
  else if 111 ≤ heart_rate ∧ heart_rate ≤ 130 then 2
  else 3

/-- Level-of-consciousness block: 0 when the uppercased string starts
with A, else 3. -/
def news2LocScore (level_of_consciousness : PyStr) : ℕ :=
  if startsWithUpperA level_of_consciousness then 0 else 3

/-- Temperature block, transcribed with the source branch order (the
final else yields 2). -/
def news2TemperatureScore (temperature : ℚ) : ℕ :=
  if 36.1 ≤ temperature ∧ temperature ≤ 38.0 then 0
  else if (35.1 ≤ temperature ∧ temperature ≤ 36.0) ∨
      (38.1 ≤ temperature ∧ temperature ≤ 39.0) then 1
  else if temperature ≤ 35.0 then 3
  else 2

/-- Sum of the values present in the `score` dict (an absent key
contributes nothing). -/
def news2Total (s : News2Scores) : ℕ :=
  s.respiratory_rate.getD 0 + s.oxygen_saturation.getD 0 + s.SpO2_Scale_1.getD 0 +
    s.SpO2_Scale_2.getD 0 + s.Age.getD 0 + s.Fio2 + s.systolic_bp + s.heart_rate +
    s.level_of_consciousness + s.temperature

/-- Does 3 occur among the values of the `score` dict
(`3 in score_map.values()` in `_interpret_news2`). -/
def news2HasScoreThree (s : News2Scores) : Bool :=
  s.respiratory_rate == some 3 || s.oxygen_saturation == some 3 ||
    s.SpO2_Scale_1 == some 3 || s.SpO2_Scale_2 == some 3 || s.Age == some 3 ||
    s.Fio2 == 3 || s.systolic_bp == 3 || s.heart_rate == 3 ||
    s.level_of_consciousness == 3 || s.temperature == 3

/-- Risk component of `_interpret_news2` (the paired recommendation
string is not modelled; no claim mentions it). -/
def interpretNews2Risk (total_score : ℕ) (has_score_3 : Bool) : String :=
  if 7 ≤ total_score then "High"
  else if 5 ≤ total_score then "Medium"
  else if has_score_3 then "Low-Medium"
  else "Low"

/-- Result dict of `calculate_news2`. -/
structure News2Result where
  individual_scores : News2Scores
  total_score : ℕ
  risk_band : String
deriving DecidableEq, Repr

/-- `calculate_news2`: builds the `score` dict block by block, sums its
values and attaches the risk band. The `oxygen_saturation` entry takes
the Scale-2 write when present (it overwrites the Scale-1 write),
otherwise the Scale-1 write. -/
def calculate_news2 (respiratory_rate : ℤ) (SpO2_Scale_1 : ℤ) (SpO2_Scale_2 : ℤ)
    (supplemental_oxygen : Bool) (systolic_bp : ℤ) (heart_rate : ℤ)
    (level_of_consciousness : PyStr) (temperature : ℚ) (Age : ℤ) : News2Result :=
  let p1 := news2Scale1Scores SpO2_Scale_1
  let p2 := news2Scale2Scores SpO2_Scale_2 supplemental_oxygen
  let scores : News2Scores :=
    { respiratory_rate := news2RespRateScore respiratory_rate
      oxygen_saturation := match p2.1 with | some v => some v | none => p1.1
      SpO2_Scale_1 := p1.2
      SpO2_Scale_2 := p2.2
      Age := news2AgeScore Age
      Fio2 := if supplemental_oxygen then 2 else 0
      systolic_bp := news2SbpScore systolic_bp
      heart_rate := news2HeartRateScore heart_rate
      level_of_consciousness := news2LocScore level_of_consciousness
      temperature := news2TemperatureScore temperature }
  let total_score : ℕ := news2Total scores
  { individual_scores := scores
    total_score := total_score
    risk_band := interpretNews2Risk total_score (news2HasScoreThree scores) }

end SepsisScoring

namespace SepsisScoring

lemma respiration_le_four (pf : ℚ) (support : Bool) :
    calculate_sofa_respiration pf support ≤ 4 := by
  unfold calculate_sofa_respiration
  split_ifs <;> omega

lemma coagulation_le_four (plt : ℚ) : calculate_sofa_coagulation plt ≤ 4 := by
  unfold calculate_sofa_coagulation
  split_ifs <;> omega

lemma liver_le_four (bil : ℚ) : calculate_sofa_liver bil ≤ 4 := by
  unfold calculate_sofa_liver
  split_ifs <;> omega

lemma cardiovascular_le_four (m d db e n : ℚ) :
    calculate_sofa_cardiovascular m d db e n ≤ 4 := by
  unfold calculate_sofa_cardiovascular
  split_ifs <;> omega

lemma cns_le_four (g : ℤ) : calculate_sofa_cns g ≤ 4 := by
  unfold calculate_sofa_cns
  split_ifs <;> omega

lemma renal_le_four (cr : ℚ) (u : Option ℚ) : calculate_sofa_renal cr u ≤ 4 := by
  rcases u with _ | uo <;> unfold calculate_sofa_renal <;> dsimp only <;>
    split_ifs <;> simp [Nat.max_le]

/-- C3: for every input, `calculate_total_sofa` returns a total equal to
the sum of the six organ sub-scores, each sub-score at most 4 (sub-scores
are naturals, so they are at least 0), hence total at most 24; the delta
equals total minus the caller-supplied baseline; the sepsis flag holds
exactly when the delta is at least 2; and the estimated mortality is
min(10 + 5*total, 90) percent. -/
theorem sofa_total_invariants (pf plt bil m : ℚ) (gcs : ℤ) (cr : ℚ) (supp : Bool)
    (d db e n : ℚ) (u : Option ℚ) (b : ℤ) :
    (calculate_total_sofa pf plt bil m gcs cr supp d db e n u b).total_sofa =
        (calculate_total_sofa pf plt bil m gcs cr supp d db e n u b).individual_scores.respiration +
        (calculate_total_sofa pf plt bil m gcs cr supp d db e n u b).individual_scores.coagulation +
        (calculate_total_sofa pf plt bil m gcs cr supp d db e n u b).individual_scores.liver +
        (calculate_total_sofa pf plt bil m gcs cr supp d db e n u b).individual_scores.cardiovascular +
        (calculate_total_sofa pf plt bil m gcs cr supp d db e n u b).individual_scores.cns +
        (calculate_total_sofa pf plt bil m gcs cr supp d db e n u b).individual_scores.renal ∧
      (calculate_total_sofa pf plt bil m gcs cr supp d db e n u b).individual_scores.respiration ≤ 4 ∧
      (calculate_total_sofa pf plt bil m gcs cr supp d db e n u b).individual_scores.coagulation ≤ 4 ∧
      (calculate_total_sofa pf plt bil m gcs cr supp d db e n u b).individual_scores.liver ≤ 4 ∧
      (calculate_total_sofa pf plt bil m gcs cr supp d db e n u b).individual_scores.cardiovascular ≤ 4 ∧
      (calculate_total_sofa pf plt bil m gcs cr supp d db e n u b).individual_scores.cns ≤ 4 ∧
      (calculate_total_sofa pf plt bil m gcs cr supp d db e n u b).individual_scores.renal ≤ 4 ∧
      (calculate_total_sofa pf plt bil m gcs cr supp d db e n u b).total_sofa ≤ 24 ∧
      (calculate_total_sofa pf plt bil m gcs cr supp d db e n u b).delta_sofa =
        ((calculate_total_sofa pf plt bil m gcs cr supp d db e n u b).total_sofa : ℤ) - b ∧
      ((calculate_total_sofa pf plt bil m gcs cr supp d db e n u b).sepsis_criteria_met = true ↔
        2 ≤ (calculate_total_sofa pf plt bil m gcs cr supp d db e n u b).delta_sofa) ∧
      (calculate_total_sofa pf plt bil m gcs cr supp d db e n u b).estimated_mortality_risk_percent =
        min (10 + 5 * (calculate_total_sofa pf plt bil m gcs cr supp d db e n u b).total_sofa) 90 := by
  have hmin : ∀ x : ℕ, min (10 + x * 5) 90 = min (10 + 5 * x) 90 := by
    intro x; omega
  have hsum : (calculate_total_sofa pf plt bil m gcs cr supp d db e n u b).total_sofa =
      calculate_sofa_respiration pf supp + calculate_sofa_coagulation plt +
      calculate_sofa_liver bil + calculate_sofa_cardiovascular m d db e n +
      calculate_sofa_cns gcs + calculate_sofa_renal cr u := rfl
  refine ⟨rfl, respiration_le_four pf supp, coagulation_le_four plt, liver_le_four bil,
    cardiovascular_le_four m d db e n, cns_le_four gcs, renal_le_four cr u, ?_, rfl,
    ⟨fun h => of_decide_eq_true h, fun h => decide_eq_true h⟩, hmin _⟩
  rw [hsum]
  have h1 := respiration_le_four pf supp
  have h2 := coagulation_le_four plt
  have h3 := liver_le_four bil
  have h4 := cardiovascular_le_four m d db e n
  have h5 := cns_le_four gcs
  have h6 := renal_le_four cr u
  omega

/-- C1 counterexample: on the documented scenario input
(PaO2/FiO2=250, platelets=80, bilirubin=3.2, MAP=65, GCS=12,
creatinine=2.5, respiratory support, dopamine=8, baseline 0) the code
does not return the claimed cardiovascular sub-score 2, total 12 and
delta 12. -/
theorem sofa_scenario_claim_refuted :
    ¬((calculate_total_sofa 250 80 3.2 65 12 2.5 true 8 0 0 0 none 0).individual_scores.cardiovascular = 2 ∧
      (calculate_total_sofa 250 80 3.2 65 12 2.5 true 8 0 0 0 none 0).total_sofa = 12 ∧
      (calculate_total_sofa 250 80 3.2 65 12 2.5 true 8 0 0 0 none 0).delta_sofa = 12) := by
  have hcard : (calculate_total_sofa 250 80 3.2 65 12 2.5 true 8 0 0 0 none 0).individual_scores.cardiovascular = 3 := by
    show calculate_sofa_cardiovascular 65 8 0 0 0 = 3
    norm_num [calculate_sofa_cardiovascular]
  intro hc
  rw [hcard] at hc
  exact absurd hc.1 (by norm_num)

/-- C1 amended: on the scenario input the sub-scores are
{respiration 2, coagulation 2, liver 2, cardiovascular 3, cns 2,
renal 2}, total 13, delta 13, and the sepsis flag is set (dopamine 8
falls in the dose band (5,15], which scores 3, not 2). -/
theorem sofa_scenario_dopamine8_actual :
    (calculate_total_sofa 250 80 3.2 65 12 2.5 true 8 0 0 0 none 0).individual_scores =
      { respiration := 2, coagulation := 2, liver := 2, cardiovascular := 3,
        cns := 2, renal := 2 } ∧
    (calculate_total_sofa 250 80 3.2 65 12 2.5 true 8 0 0 0 none 0).total_sofa = 13 ∧
    (calculate_total_sofa 250 80 3.2 65 12 2.5 true 8 0 0 0 none 0).delta_sofa = 13 ∧
    (calculate_total_sofa 250 80 3.2 65 12 2.5 true 8 0 0 0 none 0).sepsis_criteria_met = true := by
  have hresp : calculate_sofa_respiration 250 true = 2 := by
    norm_num [calculate_sofa_respiration]
  have hcoag : calculate_sofa_coagulation 80 = 2 := by
    norm_num [calculate_sofa_coagulation]
  have hliv : calculate_sofa_liver 3.2 = 2 := by
    norm_num [calculate_sofa_liver]
  have hcard : calculate_sofa_cardiovascular 65 8 0 0 0 = 3 := by
    norm_num [calculate_sofa_cardiovascular]
  have hcns : calculate_sofa_cns 12 = 2 := by
    norm_num [calculate_sofa_cns]
  have hren : calculate_sofa_renal 2.5 none = 2 := by
    norm_num [calculate_sofa_renal]
  have hsc : (calculate_total_sofa 250 80 3.2 65 12 2.5 true 8 0 0 0 none 0).individual_scores =
      { respiration := 2, coagulation := 2, liver := 2, cardiovascular := 3,
        cns := 2, renal := 2 } := by
    show SofaScores.mk (calculate_sofa_respiration 250 true) (calculate_sofa_coagulation 80)
        (calculate_sofa_liver 3.2) (calculate_sofa_cardiovascular 65 8 0 0 0)
        (calculate_sofa_cns 12) (calculate_sofa_renal 2.5 none) = _
    rw [hresp, hcoag, hliv, hcard, hcns, hren]
  have htot : (calculate_total_sofa 250 80 3.2 65 12 2.5 true 8 0 0 0 none 0).total_sofa = 13 := by
    show calculate_sofa_respiration 250 true + calculate_sofa_coagulation 80 +
        calculate_sofa_liver 3.2 + calculate_sofa_cardiovascular 65 8 0 0 0 +
        calculate_sofa_cns 12 + calculate_sofa_renal 2.5 none = 13
    rw [hresp, hcoag, hliv, hcard, hcns, hren]
  refine ⟨hsc, htot, ?_, ?_⟩
  · show ((calculate_total_sofa 250 80 3.2 65 12 2.5 true 8 0 0 0 none 0).total_sofa : ℤ) - 0 = 13
    rw [htot]
    norm_num
  · show decide (2 ≤ (calculate_total_sofa 250 80 3.2 65 12 2.5 true 8 0 0 0 none 0).delta_sofa) = true
    have hd : (calculate_total_sofa 250 80 3.2 65 12 2.5 true 8 0 0 0 none 0).delta_sofa = 13 := by
      show ((calculate_total_sofa 250 80 3.2 65 12 2.5 true 8 0 0 0 none 0).total_sofa : ℤ) - 0 = 13
      rw [htot]; norm_num
    rw [hd]
    decide

/-- C2: the cardiovascular sub-scorer returns 0 when all four doses are
zero and MAP is at least 70, 1 when all doses are zero otherwise, and
with any nonzero dose evaluates the bands in ascending-severity order,
the first matching band winning: 2 for dopamine in (0,5] or dobutamine
positive, 3 for dopamine in (5,15] or epinephrine in (0,0.1] or
norepinephrine in (0,0.1], 4 for dopamine above 15 or epinephrine above
0.1 or norepinephrine above 0.1. -/
theorem sofa_cardiovascular_band_order (m d db e n : ℚ) :
    ((d = 0 ∧ db = 0 ∧ e = 0 ∧ n = 0) →
      calculate_sofa_cardiovascular m d db e n = if 70 ≤ m then 0 else 1) ∧
    (¬(d = 0 ∧ db = 0 ∧ e = 0 ∧ n = 0) →
      (((0 < d ∧ d ≤ 5) ∨ 0 < db) → calculate_sofa_cardiovascular m d db e n = 2) ∧
      (¬((0 < d ∧ d ≤ 5) ∨ 0 < db) →
        ((5 < d ∧ d ≤ 15) ∨ (0 < e ∧ e ≤ 0.1) ∨ (0 < n ∧ n ≤ 0.1)) →
        calculate_sofa_cardiovascular m d db e n = 3) ∧
      (¬((0 < d ∧ d ≤ 5) ∨ 0 < db) →
        ¬((5 < d ∧ d ≤ 15) ∨ (0 < e ∧ e ≤ 0.1) ∨ (0 < n ∧ n ≤ 0.1)) →
        (15 < d ∨ 0.1 < e ∨ 0.1 < n) →
        calculate_sofa_cardiovascular m d db e n = 4)) := by
  unfold calculate_sofa_cardiovascular
  constructor
  · intro h; rw [if_pos h]
  · intro h
    refine ⟨?_, ?_, ?_⟩
    · intro h2; rw [if_neg h, if_pos h2]
    · intro h2 h3; rw [if_neg h, if_neg h2, if_pos h3]
    · intro h2 h3 h4; rw [if_neg h, if_neg h2, if_neg h3, if_pos h4]

/-- C2 witness: the four behaviours at concrete inputs. -/
theorem sofa_cardiovascular_band_order_witness :
    calculate_sofa_cardiovascular 65 0 0 0 0 = (if (70:ℚ) ≤ 65 then 0 else 1) ∧
    calculate_sofa_cardiovascular 65 3 0 0 0 = 2 ∧
    calculate_sofa_cardiovascular 65 8 0 0 0 = 3 ∧
    calculate_sofa_cardiovascular 65 0 0 0 0.5 = 4 :=
  ⟨(sofa_cardiovascular_band_order 65 0 0 0 0).1 (by norm_num),
   ((sofa_cardiovascular_band_order 65 3 0 0 0).2 (by norm_num)).1 (by norm_num),
   ((sofa_cardiovascular_band_order 65 8 0 0 0).2 (by norm_num)).2.1 (by norm_num) (by norm_num),
   ((sofa_cardiovascular_band_order 65 0 0 0 0.5).2 (by norm_num)).2.2 (by norm_num)
     (by norm_num) (by norm_num)⟩

/-- C9: the respiration sub-scorer returns 3 or 4 only when respiratory
support is true; with support false and a ratio below 200 it returns
exactly 2, however low the ratio. -/
theorem sofa_respiration_support_gating (pf : ℚ) (support : Bool) :
    ((calculate_sofa_respiration pf support = 3 ∨
        calculate_sofa_respiration pf support = 4) → support = true) ∧
    (pf < 200 → calculate_sofa_respiration pf false = 2) := by
  constructor
  · unfold calculate_sofa_respiration
    split_ifs with h1 h2 h3 h4 h5 h6 <;> intro hc <;>
      first
        | exact h4.2.2
        | exact h5.2
        | (rcases hc with hc | hc <;> exact absurd hc (by decide))
  · intro h
    unfold calculate_sofa_respiration
    rw [if_neg (by intro hc; linarith),
      if_neg (by rintro ⟨h1, h2⟩; linarith),
      if_neg (by rintro ⟨h1, h2⟩; linarith),
      if_neg (by rintro ⟨h1, h2, h3⟩; simp at h3),
      if_neg (by rintro ⟨h1, h2⟩; simp at h2),
      if_pos h]

/-- C9 witness: a ratio of 50 without support scores 2, and a
3-scoring call indeed has support set. -/
theorem sofa_respiration_support_gating_witness :
    calculate_sofa_respiration 50 false = 2 ∧ true = true :=
  ⟨(sofa_respiration_support_gating 50 false).2 (by norm_num),
   (sofa_respiration_support_gating 150 true).1 (Or.inl (by decide))⟩

/-- The `high_risk_for_poor_outcomes` entry of the returned dict, `none`
on the insufficient-input result. -/
def qsofaHighRiskOf (r : Except String QsofaOk) : Option Bool :=
  match r with
  | Except.ok o => some o.high_risk_for_poor_outcomes
  | Except.error _ => none

/-- C6: `calculate_qsofa` returns the insufficient-input result (an
error carrying the missing-input message, hence no numeric score)
whenever any of the three inputs is absent; when all three are present
it returns a score equal to the count of true criteria (respiratory
rate at least 22, GCS below 15, systolic BP at most 100), which is at
most 3, with the high-risk flag set exactly when the score is at
least 2. -/
theorem qsofa_missing_and_score (rr sbp : Option ℚ) (gcs : Option ℤ) :
    ((rr = none ∨ sbp = none ∨ gcs = none) →
      calculate_qsofa rr sbp gcs = Except.error qsofaMissingMsg ∧
      qsofaScoreOf (calculate_qsofa rr sbp gcs) = none) ∧
    (∀ r s g, rr = some r → sbp = some s → gcs = some g →
      qsofaScoreOf (calculate_qsofa rr sbp gcs) =
        some ((if 22 ≤ r then 1 else 0) + (if g < 15 then 1 else 0) +
          (if s ≤ 100 then 1 else 0)) ∧
      (if 22 ≤ r then 1 else 0) + (if g < 15 then 1 else 0) +
        (if s ≤ 100 then (1:ℕ) else 0) ≤ 3 ∧
      (qsofaHighRiskOf (calculate_qsofa rr sbp gcs) = some true ↔
        2 ≤ (if 22 ≤ r then 1 else 0) + (if g < 15 then 1 else 0) +
          (if s ≤ 100 then (1:ℕ) else 0))) := by
  constructor
  · intro hmiss
    rcases rr with _ | r <;> rcases sbp with _ | s <;> rcases gcs with _ | g <;>
      simp_all [calculate_qsofa, qsofaScoreOf]
  · intro r s g hr hs hg
    subst hr; subst hs; subst hg
    by_cases h1 : 22 ≤ r <;> by_cases h2 : g < 15 <;> by_cases h3 : s ≤ 100 <;>
      simp [calculate_qsofa, qsofaScoreOf, qsofaHighRiskOf, h1, h2, h3]

/-- C6 witness: a call missing the respiratory rate yields the error
result, and the scenario call (RR 28, SBP 95, GCS 12) yields the
criteria count with its high-risk flag. -/
theorem qsofa_missing_and_score_witness :
    (calculate_qsofa none (some 95) (some 12) = Except.error qsofaMissingMsg ∧
      qsofaScoreOf (calculate_qsofa none (some 95) (some 12)) = none) ∧
    qsofaScoreOf (calculate_qsofa (some 28) (some 95) (some 12)) =
      some ((if (22:ℚ) ≤ 28 then 1 else 0) + (if (12:ℤ) < 15 then 1 else 0) +
        (if (95:ℚ) ≤ 100 then 1 else 0)) ∧
    (qsofaHighRiskOf (calculate_qsofa (some 28) (some 95) (some 12)) = some true ↔
      2 ≤ (if (22:ℚ) ≤ 28 then 1 else 0) + (if (12:ℤ) < 15 then 1 else 0) +
        (if (95:ℚ) ≤ 100 then (1:ℕ) else 0)) :=
  ⟨(qsofa_missing_and_score none (some 95) (some 12)).1 (Or.inl rfl),
   ((qsofa_missing_and_score (some 28) (some 95) (some 12)).2 28 95 12 rfl rfl rfl).1,
   ((qsofa_missing_and_score (some 28) (some 95) (some 12)).2 28 95 12 rfl rfl rfl).2.2⟩

/-- C8: `assess_septic_shock` reports shock exactly when the four
criteria (sepsis present; on vasopressors with MAP at least 65; lactate
above 2.0; adequate volume resuscitation) all hold, reports the
categorical mortality string when shock is present, and forcing any
single criterion false forces the shock flag false. -/
theorem septic_shock_conjunction (m l : ℚ) (v a s : Bool) :
    ((assess_septic_shock m l v a s).septic_shock_present = true ↔
      (s = true ∧ (v = true ∧ 65 ≤ m) ∧ 2.0 < l ∧ a = true)) ∧
    ((assess_septic_shock m l v a s).septic_shock_present = true →
      (assess_septic_shock m l v a s).estimated_mortality_risk = ">40%") ∧
    (assess_septic_shock m l v a false).septic_shock_present = false ∧
    (assess_septic_shock m l false a s).septic_shock_present = false ∧
    (assess_septic_shock m l v false s).septic_shock_present = false ∧
    (l ≤ 2.0 → (assess_septic_shock m l v a s).septic_shock_present = false) ∧
    (m < 65 → (assess_septic_shock m l v a s).septic_shock_present = false) := by
  refine ⟨?_, ?_, ?_, ?_, ?_, ?_, ?_⟩
  · show (s && (v && decide (65 ≤ m)) && decide (2.0 < l) && a) = true ↔ _
    simp [and_assoc, decide_eq_true_iff, Bool.and_eq_true]
  · intro h
    show (if (s && (v && decide (65 ≤ m)) && decide (2.0 < l) && a) then _ else _) = _
    rw [show (s && (v && decide (65 ≤ m)) && decide (2.0 < l) && a) = true from h]
    rfl
  · show (false && (v && decide (65 ≤ m)) && decide (2.0 < l) && a) = false
    simp
  · show (s && (false && decide (65 ≤ m)) && decide (2.0 < l) && a) = false
    simp
  · show (s && (v && decide (65 ≤ m)) && decide (2.0 < l) && false) = false
    simp
  · intro h
    have hl : ¬(2.0 < l) := not_lt.2 h
    show (s && (v && decide (65 ≤ m)) && decide (2.0 < l) && a) = false
    simp [hl]
  · intro h
    have hm : ¬(65 ≤ m) := not_le.2 h
    show (s && (v && decide (65 ≤ m)) && decide (2.0 < l) && a) = false
    simp [hm]

/-- C8 witness: the documented scenario (MAP 68, lactate 3.5, on
vasopressors, adequate resuscitation, sepsis present) reports shock
with its mortality string, and lowering lactate or MAP removes it. -/
theorem septic_shock_conjunction_witness :
    (assess_septic_shock 68 3.5 true true true).septic_shock_present = true ∧
    (assess_septic_shock 68 3.5 true true true).estimated_mortality_risk = ">40%" ∧
    (assess_septic_shock 68 1 true true true).septic_shock_present = false ∧
    (assess_septic_shock 60 3.5 true true true).septic_shock_present = false :=
  ⟨(septic_shock_conjunction 68 3.5 true true true).1.mpr
      ⟨rfl, ⟨rfl, by norm_num⟩, by norm_num, rfl⟩,
   (septic_shock_conjunction 68 3.5 true true true).2.1
      ((septic_shock_conjunction 68 3.5 true true true).1.mpr
        ⟨rfl, ⟨rfl, by norm_num⟩, by norm_num, rfl⟩),
   (septic_shock_conjunction 68 1 true true true).2.2.2.2.2.1 (by norm_num),
   (septic_shock_conjunction 60 3.5 true true true).2.2.2.2.2.2 (by norm_num)⟩

/-- C4: the NEWS2 respiratory-rate elif chain has no final else, so
every rate from 25 to 31 sets no respiratory-rate key at all (the
parameter then contributes nothing to the total), contradicting the
ladder-totality invariant. -/
theorem news2_respiratory_rate_gap (rr : ℤ) (h1 : 25 ≤ rr) (h2 : rr ≤ 31) :
    news2RespRateScore rr = none ∧
    (calculate_news2 rr 96 92 false 120 70 strAlert 37 30).individual_scores.respiratory_rate =
      none := by
  have h : news2RespRateScore rr = none := by
    unfold news2RespRateScore
    split_ifs <;> first | rfl | (exfalso; omega)
  exact ⟨h, h⟩

/-- C4 witness: a respiratory rate of 26 resolves to no band. -/
theorem news2_respiratory_rate_gap_witness :
    ((25:ℤ) ≤ 26 ∧ (26:ℤ) ≤ 31) ∧
    (news2RespRateScore 26 = none ∧
      (calculate_news2 26 96 92 false 120 70 strAlert 37 30).individual_scores.respiratory_rate =
        none) :=
  ⟨by decide, news2_respiratory_rate_gap 26 (by decide) (by decide)⟩

lemma interpretNews2Risk_spec (t : ℕ) (h3 : Bool) :
    (interpretNews2Risk t h3 = "High" ↔ 7 ≤ t) ∧
    (interpretNews2Risk t h3 = "Medium" ↔ 5 ≤ t ∧ t < 7) ∧
    (interpretNews2Risk t h3 = "Low-Medium" ↔ t < 5 ∧ h3 = true) ∧
    (interpretNews2Risk t h3 = "Low" ↔ t < 5 ∧ ¬h3 = true) := by
  have d1 : ("High" : String) ≠ "Medium" := by decide
  have d2 : ("High" : String) ≠ "Low-Medium" := by decide
  have d3 : ("High" : String) ≠ "Low" := by decide
  have d4 : ("Medium" : String) ≠ "High" := by decide
  have d5 : ("Medium" : String) ≠ "Low-Medium" := by decide
  have d6 : ("Medium" : String) ≠ "Low" := by decide
  have d7 : ("Low-Medium" : String) ≠ "High" := by decide
  have d8 : ("Low-Medium" : String) ≠ "Medium" := by decide
  have d9 : ("Low-Medium" : String) ≠ "Low" := by decide
  have d10 : ("Low" : String) ≠ "High" := by decide
  have d11 : ("Low" : String) ≠ "Medium" := by decide
  have d12 : ("Low" : String) ≠ "Low-Medium" := by decide
  unfold interpretNews2Risk
  split_ifs with h1 h2 hb <;> refine ⟨?_, ?_, ?_, ?_⟩ <;> simp_all <;> omega

/-- C7: the NEWS2 total is non-negative, and the risk band equals High
exactly when the total is at least 7, Medium exactly when the total is
in [5,7), Low-Medium exactly when the total is below 5 and some entry of
the score dict equals 3, and Low exactly when the total is below 5 and
no entry equals 3. -/
theorem news2_risk_band_iff (rr s1 s2 : ℤ) (so : Bool) (sbp hrt : ℤ) (loc : PyStr)
    (tmp : ℚ) (age : ℤ) :
    0 ≤ (calculate_news2 rr s1 s2 so sbp hrt loc tmp age).total_score ∧
    ((calculate_news2 rr s1 s2 so sbp hrt loc tmp age).risk_band = "High" ↔
      7 ≤ (calculate_news2 rr s1 s2 so sbp hrt loc tmp age).total_score) ∧
    ((calculate_news2 rr s1 s2 so sbp hrt loc tmp age).risk_band = "Medium" ↔
      5 ≤ (calculate_news2 rr s1 s2 so sbp hrt loc tmp age).total_score ∧
      (calculate_news2 rr s1 s2 so sbp hrt loc tmp age).total_score < 7) ∧
    ((calculate_news2 rr s1 s2 so sbp hrt loc tmp age).risk_band = "Low-Medium" ↔
      (calculate_news2 rr s1 s2 so sbp hrt loc tmp age).total_score < 5 ∧
      news2HasScoreThree (calculate_news2 rr s1 s2 so sbp hrt loc tmp age).individual_scores =
        true) ∧
    ((calculate_news2 rr s1 s2 so sbp hrt loc tmp age).risk_band = "Low" ↔
      (calculate_news2 rr s1 s2 so sbp hrt loc tmp age).total_score < 5 ∧
      ¬news2HasScoreThree (calculate_news2 rr s1 s2 so sbp hrt loc tmp age).individual_scores =
        true) := by
  refine ⟨Nat.zero_le _, ?_⟩
  have h := interpretNews2Risk_spec
    (calculate_news2 rr s1 s2 so sbp hrt loc tmp age).total_score
    (news2HasScoreThree (calculate_news2 rr s1 s2 so sbp hrt loc tmp age).individual_scores)
  exact h

lemma startsWithUpperA_cons_iff (c : ℕ) (rest : List ℕ) :
    startsWithUpperA (c :: rest) = true ↔ (c = 97 ∨ c = 65) := by
  unfold startsWithUpperA pyUpperChar
  simp only [List.map_cons, beq_iff_eq]
  split_ifs with h <;> omega

/-- C10: the NEWS2 level-of-consciousness contribution is 0 exactly when
the supplied string begins with the code point of a lowercase or
uppercase letter A (97 or 65), and 3 for every other string; it is the
contribution `calculate_news2` records, and on the enumerated values it
is 0 for Alert and 3 for Voice, Pain and Unresponsive. -/
theorem news2_loc_starts_with_a (s : PyStr) :
    (news2LocScore s = 0 ↔ (s.head? = some 97 ∨ s.head? = some 65)) ∧
    (news2LocScore s = 3 ↔ ¬(s.head? = some 97 ∨ s.head? = some 65)) ∧
    (calculate_news2 18 96 92 false 120 70 s 37 30).individual_scores.level_of_consciousness =
      news2LocScore s ∧
    news2LocScore strAlert = 0 ∧ news2LocScore strVoice = 3 ∧
    news2LocScore strPain = 3 ∧ news2LocScore strUnresponsive = 3 := by
  have hmain : (news2LocScore s = 0 ↔ (s.head? = some 97 ∨ s.head? = some 65)) ∧
      (news2LocScore s = 3 ↔ ¬(s.head? = some 97 ∨ s.head? = some 65)) := by
    rcases s with _ | ⟨c, rest⟩
    · exact ⟨by decide, by decide⟩
    · have hiff := startsWithUpperA_cons_iff c rest
      unfold news2LocScore
      split_ifs with h
      · have hc := hiff.mp h
        simp only [List.head?_cons, Option.some.injEq]
        tauto
      · have hc : ¬(c = 97 ∨ c = 65) := fun hor => h (hiff.mpr hor)
        simp only [List.head?_cons, Option.some.injEq]
        tauto
  exact ⟨hmain.1, hmain.2, rfl, by decide, by decide, by decide, by decide⟩

lemma news2Scale1_snd (s1 : ℤ) :
    (news2Scale1Scores s1).2 =
      (if 96 ≤ s1 then none
       else if 94 ≤ s1 ∧ s1 ≤ 95 then some 1
       else if 92 ≤ s1 ∧ s1 ≤ 93 then some 2
       else some 3) := by
  unfold news2Scale1Scores
  split_ifs <;> rfl

lemma news2Scale2_snd (s2 : ℤ) (so : Bool) :
    (news2Scale2Scores s2 so).2 =
      (if 92 ≤ s2 then none
       else if 86 ≤ s2 ∧ s2 ≤ 87 then some 1
       else if 84 ≤ s2 ∧ s2 ≤ 85 then some 2
       else some 3) := by
  cases so <;> unfold news2Scale2Scores <;> split_ifs <;>
    first | rfl | (exfalso; omega)

lemma news2OxySaturation_eq (s1 s2 : ℤ) (so : Bool) :
    (match (news2Scale2Scores s2 so).1 with
      | some v => some v
      | none => (news2Scale1Scores s1).1) =
      (if 96 ≤ s1 ∨ 92 ≤ s2 then some (0:ℕ) else none) := by
  cases so <;> unfold news2Scale1Scores news2Scale2Scores <;> split_ifs <;>
    first | rfl | (exfalso; omega)

/-- C5 counterexample: `calculate_news2` has no scale-selection input and
both saturation arguments feed the result: two calls that differ only in
the Scale-1 value give different totals, and two calls that differ only
in the Scale-2 value give different totals, so no choice of selected
scale makes the result independent of the other scale. -/
theorem news2_both_scales_affect_result :
    (calculate_news2 18 96 92 false 120 70 strAlert 37 30).total_score ≠
      (calculate_news2 18 91 92 false 120 70 strAlert 37 30).total_score ∧
    (calculate_news2 18 96 92 false 120 70 strAlert 37 30).total_score ≠
      (calculate_news2 18 96 85 false 120 70 strAlert 37 30).total_score := by
  constructor <;>
    norm_num [calculate_news2, news2RespRateScore, news2Scale1Scores,
      news2Scale2Scores, news2AgeScore, news2SbpScore, news2HeartRateScore,
      news2LocScore, news2TemperatureScore, news2Total, startsWithUpperA,
      pyUpperChar, strAlert]

/-- C5 amended: both saturation scales contribute to the NEWS2 score
dict: the Scale-1 entry is absent when Scale 1 is at least 96 and
otherwise scores 1 (94-95), 2 (92-93) or 3; the Scale-2 entry is absent
when Scale 2 is at least 92 and otherwise scores 1 (86-87), 2 (84-85) or
3 (the chained-comparison supplemental-oxygen disjuncts of the source
are subsumed or unreachable); and the shared `oxygen_saturation` entry
is 0, present exactly when Scale 1 is at least 96 or Scale 2 is at
least 92. -/
theorem news2_spo2_scales_characterization (rr s1 s2 : ℤ) (so : Bool) (sbp hrt : ℤ)
    (loc : PyStr) (tmp : ℚ) (age : ℤ) :
    (calculate_news2 rr s1 s2 so sbp hrt loc tmp age).individual_scores.SpO2_Scale_1 =
      (if 96 ≤ s1 then none
       else if 94 ≤ s1 ∧ s1 ≤ 95 then some 1
       else if 92 ≤ s1 ∧ s1 ≤ 93 then some 2
       else some 3) ∧
    (calculate_news2 rr s1 s2 so sbp hrt loc tmp age).individual_scores.SpO2_Scale_2 =
      (if 92 ≤ s2 then none
       else if 86 ≤ s2 ∧ s2 ≤ 87 then some 1
       else if 84 ≤ s2 ∧ s2 ≤ 85 then some 2
       else some 3) ∧
    (calculate_news2 rr s1 s2 so sbp hrt loc tmp age).individual_scores.oxygen_saturation =
      (if 96 ≤ s1 ∨ 92 ≤ s2 then some 0 else none) := by
  refine ⟨?_, ?_, ?_⟩
  · show (news2Scale1Scores s1).2 = _
    exact news2Scale1_snd s1
  · show (news2Scale2Scores s2 so).2 = _
    exact news2Scale2_snd s2 so
  · show (match (news2Scale2Scores s2 so).1 with
        | some v => some v
        | none => (news2Scale1Scores s1).1) = _
    exact news2OxySaturation_eq s1 s2 so

end SepsisScoring
